import Mathlib

/-
  Verification development for the mcp-time-srv repository (src/server.ts).

  The TypeScript source is shallowly embedded as executable Lean functions:
  * Instants are epoch milliseconds (Int); zone offsets are minutes (Int),
    exactly as luxon exposes them (DateTime.offset is minutes).
  * A timezone database is a list of named zones, each with an
    instant-dependent offset function; luxon's IANAZone.isValidZone and
    DateTime.setZone consult the same host database, modelled by lookup
    in that list.
  * Gregorian calendar arithmetic (what luxon uses to map between epoch
    milliseconds and local calendar fields) is embedded with the standard
    civil-from-days / days-from-civil algorithms.
  * Fallible engine functions return Except String carrying the exact
    message of the thrown JS Error; tool handlers are total and return
    the MCP content envelope, mirroring the try/catch in server.ts.
-/

/- ------------------------------------------------------------------ -/
/- Gregorian calendar arithmetic (epoch day/ms to civil fields).      -/
/- ------------------------------------------------------------------ -/

/-- Civil date from days since 1970-01-01 (proleptic Gregorian). -/
def civilFromDays (days : Int) : Int × Nat × Nat :=
  let z := days + 719468
  let era := z / 146097
  let doe := (z - era * 146097).toNat
  let yoe := (doe - doe / 1460 + doe / 36524 - doe / 146096) / 365
  let y := era * 400 + yoe
  let doy := doe - (365 * yoe + yoe / 4 - yoe / 100)
  let mp := (5 * doy + 2) / 153
  let d := doy - (153 * mp + 2) / 5 + 1
  let m := if mp < 10 then mp + 3 else mp - 9
  (if m ≤ 2 then y + 1 else y, m, d)

/-- Days since 1970-01-01 of a civil date (proleptic Gregorian). -/
def daysFromCivil (y : Int) (m d : Nat) : Int :=
  let yAdj := if m ≤ 2 then y - 1 else y
  let era := yAdj / 400
  let yoe := (yAdj - era * 400).toNat
  let mp := if m ≤ 2 then m + 9 else m - 3
  let doy := (153 * mp + 2) / 5 + d - 1
  let doe := yoe * 365 + yoe / 4 - yoe / 100 + doy
  era * 146097 + doe - 719468

/-- Hour-of-day of a local-time value in milliseconds. -/
def wallHourMs (lms : Int) : Nat := (lms % 86400000).toNat / 3600000

/-- Minute-of-hour of a local-time value in milliseconds. -/
def wallMinMs (lms : Int) : Nat := (lms % 86400000).toNat / 60000 % 60

/-- Second-of-minute of a local-time value in milliseconds. -/
def wallSecMs (lms : Int) : Nat := (lms % 86400000).toNat / 1000 % 60

/-- Millisecond-of-second of a local-time value in milliseconds. -/
def wallMsMs (lms : Int) : Nat := (lms % 86400000).toNat % 1000

/-- Local calendar fields, as luxon presents a DateTime in a zone. -/
structure CivilDateTime where
  year : Int
  month : Nat
  day : Nat
  hour : Nat
  minute : Nat
  second : Nat
  ms : Nat
deriving DecidableEq

/-- Decompose a local-time value (epoch ms shifted by the zone offset)
into calendar fields. -/
def civilOfLocalMs (lms : Int) : CivilDateTime :=
  let ymd := civilFromDays (lms / 86400000)
  { year := ymd.1, month := ymd.2.1, day := ymd.2.2,
    hour := wallHourMs lms, minute := wallMinMs lms,
    second := wallSecMs lms, ms := wallMsMs lms }

/-- Local-time value (ms) of calendar fields with zero seconds and
milliseconds, as built by luxon's set on hour and minute. -/
def msOfFields (y : Int) (mo d hh mm : Nat) : Int :=
  daysFromCivil y mo d * 86400000 + (hh : Int) * 3600000 + (mm : Int) * 60000

/- ------------------------------------------------------------------ -/
/- Zones and the host timezone database.                              -/
/- ------------------------------------------------------------------ -/

/-- A named IANA zone with its instant-dependent UTC offset in minutes. -/
structure Zone where
  name : String
  offsetAt : Int → Int

/-- Look a zone name up in the host database. -/
def findZone (db : List Zone) (tz : String) : Option Zone :=
  db.find? (fun z => z.name == tz)

/-- isValidTimezone from server.ts: luxon's IANAZone.isValidZone, i.e.
membership in the host zone database. -/
def isValidTimezone (db : List Zone) (tz : String) : Bool :=
  (findZone db tz).isSome

/-- luxon's fixOffset: resolve local wall-clock fields (read as a UTC
timestamp localTS) to an instant in zone z, starting from offset guess o.
Returns the instant and the offset the resulting DateTime carries. -/
def fixOffset (localTS o : Int) (z : Zone) : Int × Int :=
  let utcGuess := localTS - o * 60000
  let o2 := z.offsetAt utcGuess
  if o2 = o then (utcGuess, o)
  else
    let utcGuess2 := utcGuess - (o2 - o) * 60000
    let o3 := z.offsetAt utcGuess2
    if o2 = o3 then (utcGuess2, o2)
    else (localTS - (min o2 o3) * 60000, max o2 o3)

/- ------------------------------------------------------------------ -/
/- ISO-8601 rendering (luxon toISO with suppressMilliseconds).        -/
/- ------------------------------------------------------------------ -/

/-- Two-digit zero-padded decimal. -/
def pad2 (n : Nat) : String := if n < 10 then "0" ++ toString n else toString n

/-- Three-digit zero-padded decimal. -/
def pad3 (n : Nat) : String :=
  if n < 10 then "00" ++ toString n
  else if n < 100 then "0" ++ toString n else toString n

/-- Four-digit zero-padded decimal. -/
def pad4 (n : Nat) : String :=
  if n < 10 then "000" ++ toString n
  else if n < 100 then "00" ++ toString n
  else if n < 1000 then "0" ++ toString n else toString n

/-- Year rendering (the claims only exercise common-era years, where
luxon pads to four digits). -/
def yearStr (y : Int) : String :=
  if 0 ≤ y then pad4 y.toNat else "-" ++ pad4 (-y).toNat

/-- Offset suffix, e.g. +09:00 or -05:30. -/
def formatOffset (off : Int) : String :=
  (if 0 ≤ off then "+" else "-") ++ pad2 (off.natAbs / 60) ++ ":" ++ pad2 (off.natAbs % 60)

/-- luxon toISO with includeOffset and suppressMilliseconds: the
milliseconds field is printed unless it is exactly zero. -/
def toISO (ts off : Int) : String :=
  let c := civilOfLocalMs (ts + off * 60000)
  yearStr c.year ++ "-" ++ pad2 c.month ++ "-" ++ pad2 c.day ++ "T" ++
  pad2 c.hour ++ ":" ++ pad2 c.minute ++ ":" ++ pad2 c.second ++
  (if c.ms = 0 then "" else "." ++ pad3 c.ms) ++ formatOffset off

/- ------------------------------------------------------------------ -/
/- Time Engine (server.ts lines 18-104).                              -/
/- ------------------------------------------------------------------ -/

/-- TimeResult from server.ts. -/
structure TimeResult where
  timezone : String
  datetime : String
deriving DecidableEq

/-- TimeConversionResult from server.ts. -/
structure TimeConversionResult where
  source : TimeResult
  target : TimeResult
  time_difference : String
deriving DecidableEq

/-- getCurrentTime from server.ts: throws on an invalid zone, otherwise
renders the current instant in the zone. The db argument is the host
zone database and now the current instant in epoch ms. -/
def getCurrentTime (db : List Zone) (now : Int) (timezoneName : String) :
    Except String TimeResult :=
  match findZone db timezoneName with
  | none => .error ("Invalid timezone: " ++ timezoneName)
  | some z => .ok { timezone := timezoneName, datetime := toISO now (z.offsetAt now) }

/-- Value of an ASCII digit character. -/
def digitVal (c : Char) : Nat := c.toNat - 48

/-- luxon DateTime.fromFormat with format HH:mm: the anchored regex
\d\x7b2\x7d:\d\x7b2\x7d must match the whole string, and the resulting
hour and minute fields must be in range, else the DateTime is invalid. -/
def parseHHMM (s : String) : Option (Nat × Nat) :=
  match s.data with
  | [c1, c2, c3, c4, c5] =>
    if c1.isDigit && c2.isDigit && c3 == ':' && c4.isDigit && c5.isDigit then
      let hh := digitVal c1 * 10 + digitVal c2
      let mm := digitVal c4 * 10 + digitVal c5
      if hh ≤ 23 && mm ≤ 59 then some (hh, mm) else none
    else none
  | _ => none

/-- Two-decimal rendering of abs (m/60) hours, m in minutes: the model of
toFixed(2) on the offset difference. Real zone-offset differences are
multiples of 15 minutes, where the JS double and its toFixed(2) rendering
are exact, so integer rounding of 100*m/60 coincides with the source;
exact decimal halves are impossible (100*m/60 = k + 1/2 has no integer
solution), so the rounding direction never matters. -/
def toFixed2Abs (m : Int) : String :=
  let c := (100 * m.natAbs + 30) / 60
  toString (c / 100) ++ "." ++ (if c % 100 < 10 then "0" else "") ++ toString (c % 100)

/-- The two chained replace calls of server.ts line 90: first strip a
trailing .00, then strip a trailing zero of a two-decimal fraction. -/
def stripTrailingZeros (s : String) : String :=
  match s.data.reverse with
  | '0' :: '0' :: '.' :: rest => String.mk rest.reverse
  | '0' :: d :: '.' :: rest =>
    if d.isDigit then String.mk ((d :: '.' :: rest).reverse) else s
  | _ => s

/-- time_difference formatting of server.ts lines 83-91, from the offset
difference in minutes: integral hours render as a bare integer, other
values as toFixed(2) with trailing zeros stripped; non-negative values
get an explicit plus sign. -/
def formatTimeDiff (m : Int) : String :=
  if m % 60 = 0 then
    (if 0 ≤ m then "+" else "") ++ toString (m / 60) ++ "h"
  else
    (if 0 ≤ m then "+" else "-") ++ stripTrailingZeros (toFixed2Abs m) ++ "h"

/-- Core of convertTime (server.ts lines 55-91): zone checks in source,
target order; strict HH:mm parse; anchor at today's date in the source
zone (fields of now in the source zone with hour and minute replaced and
seconds zeroed, resolved through luxon's fixOffset); project the instant
into the target zone. Returns the instant, the source DateTime offset and
the target DateTime offset. -/
def convertCore (db : List Zone) (now : Int) (sourceTz timeStr targetTz : String) :
    Except String (Int × Int × Int) :=
  match findZone db sourceTz with
  | none => .error ("Invalid source timezone: " ++ sourceTz)
  | some zs =>
    match findZone db targetTz with
    | none => .error ("Invalid target timezone: " ++ targetTz)
    | some zt =>
      match parseHHMM timeStr with
      | none => .error "Invalid time format. Expected HH:MM [24-hour format]"
      | some hm =>
        let oNow := zs.offsetAt now
        let w := civilOfLocalMs (now + oNow * 60000)
        let localTS := msOfFields w.year w.month w.day hm.1 hm.2
        let p := fixOffset localTS oNow zs
        .ok (p.1, p.2, zt.offsetAt p.1)

/-- convertTime from server.ts: renders the instant computed by
convertCore in both zones and formats the offset difference. -/
def convertTime (db : List Zone) (now : Int) (sourceTz timeStr targetTz : String) :
    Except String TimeConversionResult :=
  match convertCore db now sourceTz timeStr targetTz with
  | .error e => .error e
  | .ok c =>
    .ok { source := { timezone := sourceTz, datetime := toISO c.1 c.2.1 },
          target := { timezone := targetTz, datetime := toISO c.1 c.2.2 },
          time_difference := formatTimeDiff (c.2.2 - c.2.1) }

example : daysFromCivil 1970 1 1 = 0 := by decide
example : civilFromDays 0 = (1970, 1, 1) := by decide
example : civilFromDays 20176 = (2025, 3, 29) := by decide
example : formatTimeDiff 345 = "+5.75h" := by decide

/- ------------------------------------------------------------------ -/
/- Tool Registry (server.ts lines 110-182).                           -/
/- ------------------------------------------------------------------ -/

/-- One item of an MCP tool result content array. -/
inductive ContentItem where
  | text (s : String)
deriving DecidableEq

/-- The success envelope a tool handler returns; server.ts handlers
always return this shape, also on engine failure (no throw escapes the
try/catch). -/
structure ToolResponse where
  content : List ContentItem
deriving DecidableEq

/-- The or-default idiom of server.ts lines 126, 153, 154: the JS
logical-or treats an absent argument and an empty string alike as falsy. -/
def jsOr (arg : Option String) (dflt : String) : String :=
  match arg with
  | none => dflt
  | some s => if s = "" then dflt else s

/-- List-prefix test for the substring check below. -/
def startsWithList : List Char → List Char → Bool
  | [], _ => true
  | _ :: _, [] => false
  | a :: as, b :: bs => a == b && startsWithList as bs

/-- List-infix test for the substring check below. -/
def hasSubList (pat : List Char) : List Char → Bool
  | [] => startsWithList pat []
  | a :: rest => startsWithList pat (a :: rest) || hasSubList pat rest

/-- JS String.prototype.includes, used by the handlers to classify the
caught error by its message. -/
def jsIncludes (s pat : String) : Bool := hasSubList pat.data s.data

/-- JSON string escaping for the values serialized here (zone names and
ISO datetimes contain no control characters, so quote and backslash
escapes suffice). -/
def jsonEscChar (c : Char) : List Char :=
  if c = '"' then ['\\', '"']
  else if c = '\\' then ['\\', '\\']
  else if c = '\n' then ['\\', 'n']
  else [c]

/-- Escape a whole string for JSON embedding. -/
def jsonEscape (s : String) : String :=
  String.mk (s.data.foldr (fun c acc => jsonEscChar c ++ acc) [])

/-- JSON.stringify(timeResult, null, 2) at nesting prefix ind. -/
def serializeTimeResultAt (ind : String) (r : TimeResult) : String :=
  "\x7b\n" ++ ind ++ "  \"timezone\": \"" ++ jsonEscape r.timezone ++ "\",\n" ++
  ind ++ "  \"datetime\": \"" ++ jsonEscape r.datetime ++ "\"\n" ++ ind ++ "\x7d"

/-- JSON.stringify(timeResult, null, 2). -/
def serializeTimeResult (r : TimeResult) : String := serializeTimeResultAt "" r

/-- JSON.stringify(conversionResult, null, 2). -/
def serializeConversionResult (r : TimeConversionResult) : String :=
  "\x7b\n  \"source\": " ++ serializeTimeResultAt "  " r.source ++ ",\n  \"target\": " ++
  serializeTimeResultAt "  " r.target ++ ",\n  \"time_difference\": \"" ++
  jsonEscape r.time_difference ++ "\"\n\x7d"

/-- get_current_time handler (server.ts lines 125-141): resolve the
default zone, call the engine, and on failure re-encode the error as a
success envelope whose text tailors the message by substring dispatch. -/
def getCurrentTimeHandler (db : List Zone) (now : Int) (localTz : String)
    (timezone : Option String) : ToolResponse :=
  let effectiveTimezone := jsOr timezone localTz
  match getCurrentTime db now effectiveTimezone with
  | .ok result => { content := [.text (serializeTimeResult result)] }
  | .error msg =>
    let helpfulMessage :=
      if jsIncludes msg "Invalid timezone" then
        "Error: Invalid timezone specified ('" ++ effectiveTimezone ++
        "'). Please provide a valid IANA timezone name (e.g., 'America/New_York', 'Europe/London')."
      else "Error processing get_current_time: " ++ msg
    { content := [.text helpfulMessage] }

/-- convert_time handler (server.ts lines 152-176): resolve both default
zones, call the engine, and on failure re-encode the error as a success
envelope, dispatching on the message to name the offending argument. -/
def convertTimeHandler (db : List Zone) (now : Int) (localTz : String)
    (source_timezone : Option String) (time : String) (target_timezone : Option String) :
    ToolResponse :=
  let effectiveSourceTz := jsOr source_timezone localTz
  let effectiveTargetTz := jsOr target_timezone localTz
  match convertTime db now effectiveSourceTz time effectiveTargetTz with
  | .ok result => { content := [.text (serializeConversionResult result)] }
  | .error msg =>
    let helpfulMessage :=
      if jsIncludes msg "Invalid source timezone" then
        "Error: Invalid source timezone specified ('" ++ effectiveSourceTz ++
        "'). Please provide a valid IANA timezone name."
      else if jsIncludes msg "Invalid target timezone" then
        "Error: Invalid target timezone specified ('" ++ effectiveTargetTz ++
        "'). Please provide a valid IANA timezone name."
      else if jsIncludes msg "Invalid time format" then
        "Error: Invalid time format specified ('" ++ time ++
        "'). Please use 24-hour HH:MM format (e.g., '14:30')."
      else "Error processing convert_time: " ++ msg
    { content := [.text helpfulMessage] }

/-- getLocalTimezone (server.ts lines 32-35): reads luxon's
Settings.defaultZone.name, i.e. the system zone at the moment of the
call; the argument is that reading. -/
def getLocalTimezone (systemZoneNow : String) : String := systemZoneNow

/-- The per-connection state captured by buildMcpServer (server.ts line
117): the localTz constant both tool closures of that server instance
share. -/
structure McpServerBinding where
  localTz : String
deriving DecidableEq

/-- buildMcpServer (server.ts lines 110-182): called once per connection
(lines 218 and 245); computes localTz from the system zone as read at
that call. -/
def buildMcpServer (systemZoneNow : String) : McpServerBinding :=
  { localTz := getLocalTimezone systemZoneNow }

/-- The sequence of server instances a process run creates, one per
session; the k-th entry is built from the system-zone reading at the
k-th session creation. -/
def sessionBindings (readings : List String) : List McpServerBinding :=
  readings.map buildMcpServer

/- ------------------------------------------------------------------ -/
/- Session Manager (server.ts lines 187-261).                         -/
/- ------------------------------------------------------------------ -/

/-- A transport handle as stored in a session table; the SDK sets
sessionId at session initialization and it never changes thereafter. -/
structure TransportH where
  sessionId : String
deriving DecidableEq

/-- A session lookup table (a JS object keyed by session id). -/
abbrev SessionTable := List (String × TransportH)

/-- JS object key assignment tbl[k] = v. -/
def setKey : SessionTable → String → TransportH → SessionTable
  | [], k, v => [(k, v)]
  | (k0, v0) :: rest, k, v =>
    if k0 = k then (k, v) :: rest else (k0, v0) :: setKey rest k v

/-- JS delete tbl[k]. -/
def delKey (tbl : SessionTable) (k : String) : SessionTable :=
  tbl.filter (fun p => p.1 != k)

/-- JS key lookup tbl[k]. -/
def lookupKey (tbl : SessionTable) (k : String) : Option TransportH :=
  (tbl.find? (fun p => p.1 == k)).map (fun p => p.2)

/-- An inbound request on the streamable endpoint: the optional
mcp-session-id header, and whether the body is a valid initialize
request (isInitializeRequest of the SDK). -/
structure McpRequest where
  sessionId : Option String
  isInitReq : Bool

/-- The fixed JSON-RPC rejection the /mcp route sends (server.ts lines
222-226), together with its HTTP status. -/
structure JsonRpcErrorResponse where
  status : Nat
  jsonrpc : String
  code : Int
  message : String
deriving DecidableEq

/-- The literal rejection of server.ts lines 222-226: status 400, code
-32000, message Bad Request: invalid MCP handshake, id null. -/
def badHandshakeResponse : JsonRpcErrorResponse :=
  { status := 400, jsonrpc := "2.0", code := -32000,
    message := "Bad Request: invalid MCP handshake" }

/-- Outcome of one request on the streamable endpoint. -/
inductive McpOutcome where
  | handledExisting (sid : String)
  | handledNewSession (sid : String)
  | rejected (r : JsonRpcErrorResponse)
deriving DecidableEq

/-- The /mcp route (server.ts lines 197-231): reuse a known session;
else, with no session header and an initialize body, create a transport
whose generated id (freshId) is registered in the table by the
onsessioninitialized callback; else reject with the fixed 400 body and
touch nothing. -/
def handleMcp (tbl : SessionTable) (req : McpRequest) (freshId : String) :
    McpOutcome × SessionTable :=
  match req.sessionId with
  | some sid =>
    match lookupKey tbl sid with
    | some _ => (.handledExisting sid, tbl)
    | none => (.rejected badHandshakeResponse, tbl)
  | none =>
    if req.isInitReq then
      (.handledNewSession freshId, setKey tbl freshId { sessionId := freshId })
    else (.rejected badHandshakeResponse, tbl)

/-- One mutation of a session table, covering both tables of server.ts:
a streamable request (insertion happens in onsessioninitialized, keyed
by the transport's generated id, lines 206-209), an SSE stream open
(insertion keyed by the transport's own sessionId, line 237), and a
transport close (deletion of the closing transport's own key, lines
211-216 and 240-243). -/
inductive TableStep : SessionTable → SessionTable → Prop where
  | mcp (tbl : SessionTable) (req : McpRequest) (freshId : String) :
      TableStep tbl (handleMcp tbl req freshId).2
  | sseOpen (tbl : SessionTable) (t : TransportH) :
      TableStep tbl (setKey tbl t.sessionId t)
  | closeT (tbl : SessionTable) (t : TransportH) :
      TableStep tbl (delKey tbl t.sessionId)

/-- Tables reachable from the empty initial table of server.ts lines
187-188. -/
inductive ReachableTable : SessionTable → Prop where
  | empty : ReachableTable []
  | step (tbl tbl2 : SessionTable) :
      ReachableTable tbl → TableStep tbl tbl2 → ReachableTable tbl2

/-- Key integrity: every key maps to a transport whose own sessionId is
that key. -/
def KeyIntegrity (tbl : SessionTable) : Prop :=
  ∀ p ∈ tbl, (p.2).sessionId = p.1

/- ------------------------------------------------------------------ -/
/- Spec-side definitions, named after the wording of spec.md.         -/
/- ------------------------------------------------------------------ -/

/-- ASCII digit character of a value below ten. -/
def digitChar (n : Nat) : Char := Char.ofNat (48 + n)

/-- Two-digit rendering of an hour and minute joined by a colon. -/
def hhmmStr (h m : Nat) : String :=
  String.mk [digitChar (h / 10), digitChar (h % 10), ':',
             digitChar (m / 10), digitChar (m % 10)]

/-- Modelled from the spec wording of claim C3: a string of the strict
24-hour shape, a two-digit hour 00-23 and a two-digit minute 00-59
joined by a single colon, nothing else. -/
def specStrictHHMM (s : String) : Prop :=
  ∃ h : Fin 24, ∃ m : Fin 60, s = hhmmStr h.val m.val

/-- The HH:MM slice of an ISO datetime string (characters 11-15), the
wall-clock time a caller reads off a returned datetime. -/
def hhmmOfISO (s : String) : String :=
  String.mk ((s.data.drop 11).take 5)

/- ------------------------------------------------------------------ -/
/- Concrete zone databases for witnesses and counterexamples.         -/
/- ------------------------------------------------------------------ -/

/-- A two-zone database of fixed-offset zones. -/
def witnessDb : List Zone :=
  [{ name := "Etc/UTC", offsetAt := fun _ => 0 },
   { name := "Asia/Tokyo", offsetAt := fun _ => 540 }]

/-- A one-zone database. -/
def tokyoDb : List Zone := [{ name := "Asia/Tokyo", offsetAt := fun _ => 540 }]

/-- A one-zone database with a zero-offset zone. -/
def londonOnlyDb : List Zone := [{ name := "Europe/London", offsetAt := fun _ => 0 }]

/-- Epoch ms of 2025-03-30T01:00Z, the spring-forward instant of
Europe/London in 2025. -/
def lonT : Int := 1743296400000

/-- A database holding a fixed-offset zone at UTC+14 and Europe/London
with its 2025 spring-forward transition. -/
def dstDb : List Zone :=
  [{ name := "Pacific/Kiritimati", offsetAt := fun _ => 840 },
   { name := "Europe/London", offsetAt := fun t => if t < lonT then 0 else 60 }]

/-- Epoch ms of 2025-03-29T12:00Z, the anchor instant of the round-trip
counterexample. -/
def dstNow : Int := 1743249600000

/- ------------------------------------------------------------------ -/
/- Helper lemmas.                                                     -/
/- ------------------------------------------------------------------ -/

theorem digit_bounds {c : Char} (h : c.isDigit = true) : 48 ≤ c.toNat ∧ c.toNat ≤ 57 := by
  simp only [Char.isDigit, Bool.and_eq_true, decide_eq_true_eq] at h
  exact ⟨h.1, h.2⟩

theorem digitChar_digitVal {c : Char} (h : c.isDigit = true) : digitChar (digitVal c) = c := by
  obtain ⟨h1, h2⟩ := digit_bounds h
  have he : 48 + digitVal c = c.toNat := by unfold digitVal; omega
  simp only [digitChar, he, Char.ofNat_toNat]

theorem parse_hhmmStr : ∀ (h : Fin 24) (m : Fin 60),
    parseHHMM (hhmmStr h.val m.val) = some (h.val, m.val) := by decide

theorem parse_some_shape {s : String} {p : Nat × Nat} (hp : parseHHMM s = some p) :
    p.1 ≤ 23 ∧ p.2 ≤ 59 ∧ s = hhmmStr p.1 p.2 := by
  obtain ⟨l⟩ := s
  rcases l with _ | ⟨c1, _ | ⟨c2, _ | ⟨c3, _ | ⟨c4, _ | ⟨c5, _ | ⟨c6, rest⟩⟩⟩⟩⟩⟩
  all_goals try exact Option.noConfusion hp
  simp only [parseHHMM] at hp
  split at hp
  case isFalse => exact Option.noConfusion hp
  case isTrue hcond =>
    split at hp
    case isFalse => exact Option.noConfusion hp
    case isTrue hrange =>
      simp only [Bool.and_eq_true, beq_iff_eq] at hcond
      obtain ⟨⟨⟨⟨hd1, hd2⟩, hc3⟩, hd4⟩, hd5⟩ := hcond
      simp only [decide_eq_true_eq, Bool.and_eq_true] at hrange
      obtain ⟨hb1, hb2⟩ := hrange
      obtain ⟨e1, e2⟩ := digit_bounds hd1
      obtain ⟨f1, f2⟩ := digit_bounds hd2
      obtain ⟨g1, g2⟩ := digit_bounds hd4
      obtain ⟨i1, i2⟩ := digit_bounds hd5
      cases hp
      refine ⟨hb1, hb2, ?_⟩
      subst hc3
      have q1 : (digitVal c1 * 10 + digitVal c2) / 10 = digitVal c1 := by
        unfold digitVal; omega
      have q2 : (digitVal c1 * 10 + digitVal c2) % 10 = digitVal c2 := by
        unfold digitVal; omega
      have q4 : (digitVal c4 * 10 + digitVal c5) / 10 = digitVal c4 := by
        unfold digitVal; omega
      have q5 : (digitVal c4 * 10 + digitVal c5) % 10 = digitVal c5 := by
        unfold digitVal; omega
      simp only [hhmmStr, q1, q2, q4, q5, digitChar_digitVal hd1, digitChar_digitVal hd2,
        digitChar_digitVal hd4, digitChar_digitVal hd5]

theorem wallHourMs_lt (lms : Int) : wallHourMs lms < 24 := by
  unfold wallHourMs; omega

theorem wallMinMs_lt (lms : Int) : wallMinMs lms < 60 := by
  unfold wallMinMs; omega

theorem handleMcp_snd (tbl : SessionTable) (req : McpRequest) (fid : String) :
    (handleMcp tbl req fid).2 = tbl ∨
    (handleMcp tbl req fid).2 = setKey tbl fid { sessionId := fid } := by
  unfold handleMcp
  rcases req with ⟨sid?, init⟩
  cases sid? with
  | some sid => rcases hlk : lookupKey tbl sid with _ | t <;> simp [hlk]
  | none => cases init <;> simp

theorem keyIntegrity_setKey {tbl : SessionTable} (h : KeyIntegrity tbl) {k : String}
    {t : TransportH} (hk : t.sessionId = k) : KeyIntegrity (setKey tbl k t) := by
  induction tbl with
  | nil =>
    intro p hp
    simp only [setKey, List.mem_singleton] at hp
    subst hp; exact hk
  | cons hd tl ih =>
    intro p hp
    simp only [setKey] at hp
    split at hp
    · rcases List.mem_cons.mp hp with h1 | h1
      · subst h1; exact hk
      · exact h p (List.mem_cons_of_mem hd h1)
    · rcases List.mem_cons.mp hp with h1 | h1
      · subst h1; exact h _ (List.mem_cons_self hd tl)
      · exact ih (fun q hq => h q (List.mem_cons_of_mem hd hq)) p h1

theorem keyIntegrity_delKey {tbl : SessionTable} (h : KeyIntegrity tbl) (k : String) :
    KeyIntegrity (delKey tbl k) := by
  intro p hp
  exact h p (List.mem_of_mem_filter hp)

theorem delKey_absent {tbl : SessionTable} {k : String}
    (h : lookupKey tbl k = none) : delKey tbl k = tbl := by
  induction tbl with
  | nil => rfl
  | cons hd tl ih =>
    rcases hbe : hd.1 == k with _ | _
    · have h2 : lookupKey tl k = none := by
        simpa [lookupKey, List.find?, hbe] using h
      show List.filter (fun p => p.1 != k) (hd :: tl) = hd :: tl
      rw [List.filter_cons]
      simp only [bne, hbe, Bool.not_false, if_pos, List.cons.injEq, true_and]
      exact ih h2
    · exfalso
      simp [lookupKey, List.find?, hbe] at h

theorem delKey_other (tbl : SessionTable) (k own : String) (h : k ≠ own) :
    lookupKey (delKey tbl own) k = lookupKey tbl k := by
  induction tbl with
  | nil => rfl
  | cons hd tl ih =>
    rcases hbo : hd.1 == own with _ | _
    · rcases hbk : hd.1 == k with _ | _
      · simp only [delKey, List.filter_cons, bne, hbo, Bool.not_false, if_pos,
          lookupKey, List.find?, hbk] at ih ⊢
        exact ih
      · simp [delKey, List.filter_cons, bne, hbo, lookupKey, List.find?, hbk]
    · have hdo : hd.1 = own := by simpa using hbo
      have hbk : (hd.1 == k) = false := by
        rw [hdo]
        exact beq_eq_false_iff_ne.mpr (fun hc => h hc.symm)
      simp only [delKey, List.filter_cons, bne, hbo, Bool.not_true, if_neg,
        lookupKey, List.find?, hbk] at ih ⊢
      exact ih

theorem keyIntegrity_reachable {tbl : SessionTable} (h : ReachableTable tbl) :
    KeyIntegrity tbl := by
  induction h with
  | empty => intro p hp; cases hp
  | step tbl tbl2 hr hs ih =>
    cases hs with
    | mcp req fid =>
      rcases handleMcp_snd tbl req fid with he | he <;> rw [he]
      · exact ih
      · exact keyIntegrity_setKey ih rfl
    | sseOpen t => exact keyIntegrity_setKey ih rfl
    | closeT t => exact keyIntegrity_delKey ih t.sessionId

theorem getCurrentTime_invalid {db : List Zone} {now : Int} {tz : String}
    (h : isValidTimezone db tz = false) :
    getCurrentTime db now tz = .error ("Invalid timezone: " ++ tz) := by
  cases hfz : findZone db tz with
  | none => simp [getCurrentTime, hfz]
  | some z =>
    exfalso
    unfold isValidTimezone at h
    rw [hfz] at h
    simp at h

theorem convertTime_src_invalid {db : List Zone} {now : Int} {src t tgt : String}
    (h : isValidTimezone db src = false) :
    convertTime db now src t tgt = .error ("Invalid source timezone: " ++ src) := by
  cases hfz : findZone db src with
  | none => simp [convertTime, convertCore, hfz]
  | some z =>
    exfalso
    unfold isValidTimezone at h
    rw [hfz] at h
    simp at h

theorem convertTime_tgt_invalid {db : List Zone} {now : Int} {src t tgt : String}
    (hs : isValidTimezone db src = true) (ht : isValidTimezone db tgt = false) :
    convertTime db now src t tgt = .error ("Invalid target timezone: " ++ tgt) := by
  unfold isValidTimezone at hs
  obtain ⟨zs, hzs⟩ := Option.isSome_iff_exists.mp hs
  cases hfz : findZone db tgt with
  | none => simp [convertTime, convertCore, hzs, hfz]
  | some z =>
    exfalso
    unfold isValidTimezone at ht
    rw [hfz] at ht
    simp at ht

theorem convertTime_bad_format {db : List Zone} {now : Int} {src t tgt : String}
    (hs : isValidTimezone db src = true) (ht : isValidTimezone db tgt = true)
    (hp : parseHHMM t = none) :
    convertTime db now src t tgt =
      .error "Invalid time format. Expected HH:MM [24-hour format]" := by
  unfold isValidTimezone at hs ht
  obtain ⟨zs, hzs⟩ := Option.isSome_iff_exists.mp hs
  obtain ⟨zt, hzt⟩ := Option.isSome_iff_exists.mp ht
  simp [convertTime, convertCore, hzs, hzt, hp]

theorem convertCore_const {db : List Zone} {now : Int} {src t tgt : String}
    {zs zt : Zone} {cS cT : Int} {p : Nat × Nat}
    (hzs : findZone db src = some zs) (hzt : findZone db tgt = some zt)
    (hcS : ∀ u, zs.offsetAt u = cS) (hcT : ∀ u, zt.offsetAt u = cT)
    (hp : parseHHMM t = some p) :
    convertCore db now src t tgt =
      .ok (msOfFields (civilOfLocalMs (now + cS * 60000)).year
             (civilOfLocalMs (now + cS * 60000)).month
             (civilOfLocalMs (now + cS * 60000)).day p.1 p.2 - cS * 60000,
           cS, cT) := by
  simp [convertCore, hzs, hzt, hp, fixOffset, hcS, hcT]

theorem jsIncludes_tz_marker (x : String) :
    jsIncludes ("Invalid timezone: " ++ x) "Invalid timezone" = true := by
  obtain ⟨l⟩ := x; rfl

theorem jsIncludes_src_marker (x : String) :
    jsIncludes ("Invalid source timezone: " ++ x) "Invalid source timezone" = true := by
  obtain ⟨l⟩ := x; rfl

theorem jsIncludes_tgt_marker (x : String) :
    jsIncludes ("Invalid target timezone: " ++ x) "Invalid target timezone" = true := by
  obtain ⟨l⟩ := x; rfl

/- ------------------------------------------------------------------ -/
/- Claim theorems.                                                    -/
/- ------------------------------------------------------------------ -/

/-- C7: convertTime checks the source zone before the target zone: an
invalid source zone fails with the source-tagged InvalidTimezone error
whatever the target zone and the time string are (in particular even
when the target zone is also invalid), and a valid source with an
invalid target fails with the target-tagged error, again for every time
string; since the time string is arbitrary in both parts, both zone
checks precede time-string parsing. -/
theorem convert_time_zone_check_order :
    (∀ (db : List Zone) (now : Int) (src t tgt : String),
      isValidTimezone db src = false →
      convertTime db now src t tgt = .error ("Invalid source timezone: " ++ src)) ∧
    (∀ (db : List Zone) (now : Int) (src t tgt : String),
      isValidTimezone db src = true → isValidTimezone db tgt = false →
      convertTime db now src t tgt = .error ("Invalid target timezone: " ++ tgt)) :=
  ⟨fun _ _ _ _ _ h => convertTime_src_invalid h,
   fun _ _ _ _ _ hs ht => convertTime_tgt_invalid hs ht⟩

/-- Witness for C7 at a concrete database: both zones invalid reports
the source; valid source with invalid target reports the target, both
with a time string that could never parse. -/
theorem convert_time_zone_check_order_witness :
    convertTime witnessDb 0 "Mars/Gale_Crater" "99:99" "Also/Bad" =
      .error ("Invalid source timezone: " ++ "Mars/Gale_Crater") ∧
    convertTime witnessDb 0 "Etc/UTC" "99:99" "Mars/Gale_Crater" =
      .error ("Invalid target timezone: " ++ "Mars/Gale_Crater") :=
  ⟨convert_time_zone_check_order.1 witnessDb 0 "Mars/Gale_Crater" "99:99" "Also/Bad" rfl,
   convert_time_zone_check_order.2 witnessDb 0 "Etc/UTC" "99:99" "Mars/Gale_Crater" rfl rfl⟩

/-- C8: a streamable-endpoint request that neither carries a session id
present in the streamable table nor is a valid initialize request is
answered with the fixed rejection, status 400 and JSON-RPC error code
-32000 with message Bad Request: invalid MCP handshake, and the table is
returned unchanged: no session is created. -/
theorem mcp_reject_non_handshake (tbl : SessionTable) (req : McpRequest) (fid : String)
    (hsid : ∀ sid, req.sessionId = some sid → lookupKey tbl sid = none)
    (hinit : req.isInitReq = false) :
    handleMcp tbl req fid = (.rejected badHandshakeResponse, tbl) ∧
    badHandshakeResponse.status = 400 ∧ badHandshakeResponse.code = -32000 ∧
    badHandshakeResponse.message = "Bad Request: invalid MCP handshake" := by
  refine ⟨?_, rfl, rfl, rfl⟩
  unfold handleMcp
  rcases req with ⟨sid?, init⟩
  cases sid? with
  | some sid =>
    have hlk := hsid sid rfl
    simp only [hlk]
  | none =>
    simp only at hinit
    rw [hinit]
    simp

/-- Witness for C8: a request with an unknown session id on a one-entry
table is rejected and the table is untouched. -/
theorem mcp_reject_non_handshake_witness :
    handleMcp [("abc", { sessionId := "abc" })]
        { sessionId := some "zzz", isInitReq := false } "fresh" =
      (.rejected badHandshakeResponse, [("abc", { sessionId := "abc" })]) ∧
    badHandshakeResponse.status = 400 ∧ badHandshakeResponse.code = -32000 ∧
    badHandshakeResponse.message = "Bad Request: invalid MCP handshake" :=
  mcp_reject_non_handshake [("abc", { sessionId := "abc" })]
    { sessionId := some "zzz", isInitReq := false } "fresh"
    (fun sid h => by cases h; rfl) rfl

/-- C9: an empty-string timezone argument is falsy to the JS or-default,
so it resolves to the server-local default zone and each handler behaves
exactly as with an absent argument, for the get_current_time timezone
argument and for both convert_time zone arguments. -/
theorem empty_timezone_is_default :
    (∀ ltz : String, jsOr (some "") ltz = ltz) ∧
    (∀ (db : List Zone) (now : Int) (ltz : String),
      getCurrentTimeHandler db now ltz (some "") = getCurrentTimeHandler db now ltz none) ∧
    (∀ (db : List Zone) (now : Int) (ltz t : String) (tgt : Option String),
      convertTimeHandler db now ltz (some "") t tgt =
        convertTimeHandler db now ltz none t tgt) ∧
    (∀ (db : List Zone) (now : Int) (ltz t : String) (src : Option String),
      convertTimeHandler db now ltz src t (some "") =
        convertTimeHandler db now ltz src t none) :=
  ⟨fun _ => rfl, fun _ _ _ => rfl, fun _ _ _ _ _ => rfl, fun _ _ _ _ _ => rfl⟩

/-- C10: in every reachable session table each key maps to a transport
whose own sessionId equals that key (both the streamable insert, keyed
by the freshly generated id, and the SSE insert, keyed by the
transport's own id, preserve this, as does deletion); deletion is a
no-op when the key is already absent, and deleting a closing transport's
own key leaves every other key's binding unchanged. -/
theorem session_table_key_integrity :
    (∀ tbl : SessionTable, ReachableTable tbl → KeyIntegrity tbl) ∧
    (∀ (tbl : SessionTable) (k : String), lookupKey tbl k = none → delKey tbl k = tbl) ∧
    (∀ (tbl : SessionTable) (t : TransportH) (k : String), k ≠ t.sessionId →
      lookupKey (delKey tbl t.sessionId) k = lookupKey tbl k) :=
  ⟨fun _ h => keyIntegrity_reachable h, fun _ _ h => delKey_absent h,
   fun tbl t k h => delKey_other tbl k t.sessionId h⟩

/-- Witness for C10: a table reached by one SSE open satisfies key
integrity; deleting an absent key from the empty table is a no-op; and
deleting session s1 leaves the binding of s2 unchanged. -/
theorem session_table_key_integrity_witness :
    KeyIntegrity [("s1", { sessionId := "s1" })] ∧
    delKey ([] : SessionTable) "gone" = [] ∧
    lookupKey (delKey [("s1", { sessionId := "s1" })] "s1") "s2" =
      lookupKey [("s1", { sessionId := "s1" })] "s2" := by
  refine ⟨?_, ?_, ?_⟩
  · exact session_table_key_integrity.1 _
      (ReachableTable.step _ _ ReachableTable.empty
        (TableStep.sseOpen [] { sessionId := "s1" }))
  · exact session_table_key_integrity.2.1 [] "gone" rfl
  · exact session_table_key_integrity.2.2 [("s1", { sessionId := "s1" })]
      { sessionId := "s1" } "s2" (by decide)

/-- C2: time_difference is the target-minus-source offset difference in
minutes rendered in hours: convertTime formats exactly formatTimeDiff of
the difference of the two offsets convertCore computed; integral hour
values render as a sign and a bare integer with no decimal point; and
the four reference deltas render as the claim states. -/
theorem time_difference_formatting :
    (∀ (db : List Zone) (now : Int) (src t tgt : String) (c : Int × Int × Int),
      convertCore db now src t tgt = .ok c →
      ∃ r, convertTime db now src t tgt = .ok r ∧
        r.time_difference = formatTimeDiff (c.2.2 - c.2.1)) ∧
    (∀ m : Int, m % 60 = 0 →
      formatTimeDiff m = (if 0 ≤ m then "+" else "") ++ toString (m / 60) ++ "h") ∧
    formatTimeDiff 0 = "+0h" ∧ formatTimeDiff 480 = "+8h" ∧
    formatTimeDiff (-300) = "-5h" ∧ formatTimeDiff 345 = "+5.75h" := by
  refine ⟨?_, ?_, by decide, by decide, by decide, by decide⟩
  · intro db now src t tgt c hc
    refine ⟨{ source := { timezone := src, datetime := toISO c.1 c.2.1 },
              target := { timezone := tgt, datetime := toISO c.1 c.2.2 },
              time_difference := formatTimeDiff (c.2.2 - c.2.1) }, ?_, rfl⟩
    simp [convertTime, hc]
  · intro m hm
    simp [formatTimeDiff, hm]

/-- Witness for C2: a UTC to Tokyo conversion at the epoch instant, with
the offsets convertCore computes for it. -/
theorem time_difference_formatting_witness :
    ∃ r, convertTime witnessDb 0 "Etc/UTC" "12:00" "Asia/Tokyo" = .ok r ∧
      r.time_difference = formatTimeDiff ((540 : Int) - 0) :=
  time_difference_formatting.1 witnessDb 0 "Etc/UTC" "12:00" "Asia/Tokyo"
    (43200000, 0, 540) rfl

/-- C4 counterexample: the code calls getLocalTimezone inside
buildMcpServer, once per session creation, so in a run whose system zone
reads UTC at server start and at the first session creation but
Asia/Tokyo at the second session creation, the second session's default
differs from the zone computed at server start: the default is not a
zone computed exactly once at startup and reused unchanged for every
session. -/
theorem default_zone_not_startup_constant :
    (sessionBindings ["UTC", "Asia/Tokyo"]).map McpServerBinding.localTz =
      ["UTC", "Asia/Tokyo"] ∧
    ¬ (sessionBindings ["UTC", "Asia/Tokyo"]).map McpServerBinding.localTz =
      ["UTC", "UTC"] := by
  exact ⟨rfl, by decide⟩

/-- C4 amended: the default timezone is the process's local system zone
as read at each session's buildMcpServer call (one reading per session
binding, shared by both of that session's tools); it is not recomputed
within a session, and whenever the system zone is a constant z for the
whole run every session's default is z. -/
theorem default_zone_per_session :
    (∀ sysZone : String, (buildMcpServer sysZone).localTz = getLocalTimezone sysZone) ∧
    (∀ (readings : List String) (z : String), (∀ r ∈ readings, r = z) →
      ∀ b ∈ sessionBindings readings, b.localTz = z) := by
  constructor
  · intro _; rfl
  · intro readings z hall b hb
    obtain ⟨r, hr, rfl⟩ := List.mem_map.mp hb
    exact hall r hr

/-- Witness for C4 amended: with a constant UTC system zone, a session's
binding carries the UTC default. -/
theorem default_zone_per_session_witness :
    (buildMcpServer "UTC").localTz = "UTC" :=
  default_zone_per_session.2 ["UTC"] "UTC" (by decide) (buildMcpServer "UTC") (by decide)

/-- C5: at a current instant whose millisecond component is nonzero
(epoch ms 123), getCurrentTime renders fractional seconds, because
luxon's suppressMilliseconds option only omits a milliseconds field that
is exactly zero; this contradicts the claim (and the source's own
comment aiming at Python's isoformat with timespec seconds) that the
datetime carries no fractional seconds regardless of clock resolution.
The zone guard itself behaves as claimed: an unknown zone yields the
InvalidTimezone error naming the zone. -/
theorem get_current_time_fractional_seconds :
    getCurrentTime tokyoDb 123 "Asia/Tokyo" =
      .ok { timezone := "Asia/Tokyo", datetime := "1970-01-01T09:00:00.123+09:00" } ∧
    "1970-01-01T09:00:00.123+09:00".data.contains '.' = true ∧
    getCurrentTime tokyoDb 123 "Mars/Gale_Crater" =
      .error ("Invalid timezone: " ++ "Mars/Gale_Crater") := by
  exact ⟨rfl, by decide, rfl⟩

/-- C3: with valid zones, convertTime fails with the InvalidTimeFormat
error (whose text names the expected HH:MM 24-hour pattern) exactly on
the strings that deviate from the strict two-digit 24-hour HH:MM shape
(two-digit hour 00-23, two-digit minute 00-59, single colon, nothing
else), and accepts every string of that strict shape. -/
theorem strict_hhmm_parsing :
    (∀ (db : List Zone) (now : Int) (src s tgt : String),
      isValidTimezone db src = true → isValidTimezone db tgt = true →
      (convertTime db now src s tgt =
          .error "Invalid time format. Expected HH:MM [24-hour format]" ↔
        ¬ specStrictHHMM s)) ∧
    (∀ (db : List Zone) (now : Int) (src s tgt : String),
      isValidTimezone db src = true → isValidTimezone db tgt = true →
      specStrictHHMM s → ∃ r, convertTime db now src s tgt = .ok r) := by
  constructor
  · intro db now src s tgt hs ht
    rcases hps : parseHHMM s with _ | p
    · constructor
      · intro _ hstrict
        obtain ⟨h, m, rfl⟩ := hstrict
        rw [parse_hhmmStr h m] at hps
        exact Option.noConfusion hps
      · intro _
        exact convertTime_bad_format hs ht hps
    · obtain ⟨hb1, hb2, hshape⟩ := parse_some_shape hps
      have hstrict : specStrictHHMM s := ⟨⟨p.1, by omega⟩, ⟨p.2, by omega⟩, hshape⟩
      constructor
      · intro he
        exfalso
        unfold isValidTimezone at hs ht
        obtain ⟨zs, hzs⟩ := Option.isSome_iff_exists.mp hs
        obtain ⟨zt, hzt⟩ := Option.isSome_iff_exists.mp ht
        simp [convertTime, convertCore, hzs, hzt, hps] at he
      · intro hn
        exact absurd hstrict hn
  · intro db now src s tgt hs ht hstrict
    unfold isValidTimezone at hs ht
    obtain ⟨zs, hzs⟩ := Option.isSome_iff_exists.mp hs
    obtain ⟨zt, hzt⟩ := Option.isSome_iff_exists.mp ht
    obtain ⟨h, m, rfl⟩ := hstrict
    have hc : ∃ c, convertCore db now src (hhmmStr h.val m.val) tgt = .ok c := by
      simp [convertCore, hzs, hzt, parse_hhmmStr h m]
    obtain ⟨c, hc⟩ := hc
    refine ⟨{ source := { timezone := src, datetime := toISO c.1 c.2.1 },
              target := { timezone := tgt, datetime := toISO c.1 c.2.2 },
              time_difference := formatTimeDiff (c.2.2 - c.2.1) }, ?_⟩
    unfold convertTime
    rw [hc]

/-- Witness for C3: on a concrete database with valid zones, 25:00 is
rejected with the format error and is not of the strict shape, while
14:30 is converted successfully. -/
theorem strict_hhmm_parsing_witness :
    (convertTime witnessDb 0 "Etc/UTC" "25:00" "Asia/Tokyo" =
        .error "Invalid time format. Expected HH:MM [24-hour format]" ↔
      ¬ specStrictHHMM "25:00") ∧
    (∃ r, convertTime witnessDb 0 "Etc/UTC" "14:30" "Asia/Tokyo" = .ok r) :=
  ⟨strict_hhmm_parsing.1 witnessDb 0 "Etc/UTC" "25:00" "Asia/Tokyo" rfl rfl,
   strict_hhmm_parsing.2 witnessDb 0 "Etc/UTC" "14:30" "Asia/Tokyo" rfl rfl
     ⟨⟨14, by decide⟩, ⟨30, by decide⟩, by decide⟩⟩

/-- C1 counterexample: the convert_time handler classifies the caught
engine error by substring search in its message, so a request whose
(invalid) target zone name itself contains the source marker substring,
here the name Bad/Zone Invalid source timezone, is answered with the
source-tailored text naming the valid source zone Europe/London; the
response text does not name the offending target value, contradicting
the claim that the payload always names the offending value. -/
theorem convert_handler_mislabel :
    convertTimeHandler londonOnlyDb 0 "Europe/London" none "12:00"
        (some "Bad/Zone Invalid source timezone") =
      { content := [.text ("Error: Invalid source timezone specified ('Europe/London'). " ++
        "Please provide a valid IANA timezone name.")] } ∧
    jsIncludes ("Error: Invalid source timezone specified ('Europe/London'). " ++
        "Please provide a valid IANA timezone name.")
      "Bad/Zone Invalid source timezone" = false := by
  exact ⟨rfl, by decide⟩

/-- C1 amended: every Time Engine failure is recovered and re-encoded as
a normal success envelope holding a single human-readable text item
(never a thrown error or rejected response): get_current_time failures
always name the offending effective zone; convert_time failures name the
offending source zone, the offending target zone provided that target
name does not itself contain the dispatcher's marker substring Invalid
source timezone, and the offending time string. -/
theorem tool_errors_as_success_envelopes :
    (∀ (db : List Zone) (now : Int) (ltz : String) (tz : Option String),
      ∃ txt, getCurrentTimeHandler db now ltz tz = { content := [.text txt] }) ∧
    (∀ (db : List Zone) (now : Int) (ltz : String) (src : Option String) (t : String)
        (tgt : Option String),
      ∃ txt, convertTimeHandler db now ltz src t tgt = { content := [.text txt] }) ∧
    (∀ (db : List Zone) (now : Int) (ltz : String) (tz : Option String),
      isValidTimezone db (jsOr tz ltz) = false →
      getCurrentTimeHandler db now ltz tz = { content := [.text
        ("Error: Invalid timezone specified ('" ++ jsOr tz ltz ++
         "'). Please provide a valid IANA timezone name (e.g., 'America/New_York', 'Europe/London').")] }) ∧
    (∀ (db : List Zone) (now : Int) (ltz : String) (src : Option String) (t : String)
        (tgt : Option String),
      isValidTimezone db (jsOr src ltz) = false →
      convertTimeHandler db now ltz src t tgt = { content := [.text
        ("Error: Invalid source timezone specified ('" ++ jsOr src ltz ++
         "'). Please provide a valid IANA timezone name.")] }) ∧
    (∀ (db : List Zone) (now : Int) (ltz : String) (src : Option String) (t : String)
        (tgt : Option String),
      isValidTimezone db (jsOr src ltz) = true →
      isValidTimezone db (jsOr tgt ltz) = false →
      jsIncludes ("Invalid target timezone: " ++ jsOr tgt ltz)
        "Invalid source timezone" = false →
      convertTimeHandler db now ltz src t tgt = { content := [.text
        ("Error: Invalid target timezone specified ('" ++ jsOr tgt ltz ++
         "'). Please provide a valid IANA timezone name.")] }) ∧
    (∀ (db : List Zone) (now : Int) (ltz : String) (src : Option String) (t : String)
        (tgt : Option String),
      isValidTimezone db (jsOr src ltz) = true →
      isValidTimezone db (jsOr tgt ltz) = true →
      parseHHMM t = none →
      convertTimeHandler db now ltz src t tgt = { content := [.text
        ("Error: Invalid time format specified ('" ++ t ++
         "'). Please use 24-hour HH:MM format (e.g., '14:30').")] }) := by
  refine ⟨?_, ?_, ?_, ?_, ?_, ?_⟩
  · intro db now ltz tz
    simp only [getCurrentTimeHandler]
    cases hres : getCurrentTime db now (jsOr tz ltz) with
    | error m => exact ⟨_, rfl⟩
    | ok r => exact ⟨_, rfl⟩
  · intro db now ltz src t tgt
    simp only [convertTimeHandler]
    cases hres : convertTime db now (jsOr src ltz) t (jsOr tgt ltz) with
    | error m => exact ⟨_, rfl⟩
    | ok r => exact ⟨_, rfl⟩
  · intro db now ltz tz h
    have he := @getCurrentTime_invalid db now (jsOr tz ltz) h
    simp [getCurrentTimeHandler, he, jsIncludes_tz_marker]
  · intro db now ltz src t tgt h
    have he := @convertTime_src_invalid db now (jsOr src ltz) t (jsOr tgt ltz) h
    simp [convertTimeHandler, he, jsIncludes_src_marker]
  · intro db now ltz src t tgt hs ht hnm
    have he := @convertTime_tgt_invalid db now (jsOr src ltz) t (jsOr tgt ltz) hs ht
    simp [convertTimeHandler, he, hnm, jsIncludes_tgt_marker]
  · intro db now ltz src t tgt hs ht hp
    have he := @convertTime_bad_format db now (jsOr src ltz) t (jsOr tgt ltz) hs ht hp
    simp only [convertTimeHandler, he]
    rfl

/-- Witness for C1 amended, at a concrete database: the envelope shape
on a success, and the three tailored error texts on an unknown zone
argument, an unknown source zone, an unknown target zone and an
out-of-range time string. -/
theorem tool_errors_as_success_envelopes_witness :
    (∃ txt, getCurrentTimeHandler witnessDb 0 "Etc/UTC" (some "Asia/Tokyo") =
      { content := [.text txt] }) ∧
    getCurrentTimeHandler witnessDb 0 "Etc/UTC" (some "Mars/Gale_Crater") =
      { content := [.text
        ("Error: Invalid timezone specified ('" ++ jsOr (some "Mars/Gale_Crater") "Etc/UTC" ++
         "'). Please provide a valid IANA timezone name (e.g., 'America/New_York', 'Europe/London').")] } ∧
    convertTimeHandler witnessDb 0 "Etc/UTC" (some "Mars/Gale_Crater") "14:30" none =
      { content := [.text
        ("Error: Invalid source timezone specified ('" ++ jsOr (some "Mars/Gale_Crater") "Etc/UTC" ++
         "'). Please provide a valid IANA timezone name.")] } ∧
    convertTimeHandler witnessDb 0 "Etc/UTC" none "14:30" (some "Mars/Gale_Crater") =
      { content := [.text
        ("Error: Invalid target timezone specified ('" ++ jsOr (some "Mars/Gale_Crater") "Etc/UTC" ++
         "'). Please provide a valid IANA timezone name.")] } ∧
    convertTimeHandler witnessDb 0 "Etc/UTC" none "25:00" none =
      { content := [.text
        ("Error: Invalid time format specified ('" ++ "25:00" ++
         "'). Please use 24-hour HH:MM format (e.g., '14:30').")] } :=
  ⟨tool_errors_as_success_envelopes.1 witnessDb 0 "Etc/UTC" (some "Asia/Tokyo"),
   tool_errors_as_success_envelopes.2.2.1 witnessDb 0 "Etc/UTC" (some "Mars/Gale_Crater") rfl,
   tool_errors_as_success_envelopes.2.2.2.1 witnessDb 0 "Etc/UTC"
     (some "Mars/Gale_Crater") "14:30" none rfl,
   tool_errors_as_success_envelopes.2.2.2.2.1 witnessDb 0 "Etc/UTC" none "14:30"
     (some "Mars/Gale_Crater") rfl rfl (by decide),
   tool_errors_as_success_envelopes.2.2.2.2.2 witnessDb 0 "Etc/UTC" none "25:00" none
     rfl rfl rfl⟩

/-- C6 counterexample: at anchor instant 2025-03-29T12:00Z, converting
20:00 from Pacific/Kiritimati (UTC+14, whose current date is already
2025-03-30) to Europe/London lands after London's spring-forward instant
and renders 07:00 on 2025-03-30; converting that 07:00 back anchors it
to London's current date 2025-03-29, which is before the transition, and
renders 21:00 in Kiritimati: the round trip turns 20:00 into 21:00, so
it does not reproduce the original local time exactly. -/
theorem convert_time_round_trip_dst_cex :
    (∃ r1, convertTime dstDb dstNow "Pacific/Kiritimati" "20:00" "Europe/London" = .ok r1 ∧
      hhmmOfISO r1.target.datetime = "07:00") ∧
    (∃ r2, convertTime dstDb dstNow "Europe/London" "07:00" "Pacific/Kiritimati" = .ok r2 ∧
      hhmmOfISO r2.target.datetime = "21:00" ∧
      hhmmOfISO r2.target.datetime ≠ "20:00") := by
  refine ⟨⟨_, rfl, rfl⟩, ⟨_, rfl, rfl, by decide⟩⟩

/-- C6 amended: the source and target datetimes of a conversion always
render one and the same absolute instant, the one convertCore computed
(a point-in-time conversion); and whenever both zones' UTC offsets are
constant over the run (no DST transition involved), converting a time
from zone A to zone B and converting the resulting target wall-clock
time from B back to A at the same anchor instant reproduces the original
HH:MM exactly. Across a DST transition combined with a calendar-date
shift between the zones the round trip can differ by the transition
delta, as the counterexample shows. -/
theorem convert_time_round_trip :
    (∀ (db : List Zone) (now : Int) (src t tgt : String) (c : Int × Int × Int),
      convertCore db now src t tgt = .ok c →
      convertTime db now src t tgt = .ok
        { source := { timezone := src, datetime := toISO c.1 c.2.1 },
          target := { timezone := tgt, datetime := toISO c.1 c.2.2 },
          time_difference := formatTimeDiff (c.2.2 - c.2.1) }) ∧
    (∀ (db : List Zone) (now : Int) (A B : String) (zA zB : Zone) (cA cB : Int)
        (h : Fin 24) (m : Fin 60),
      findZone db A = some zA → findZone db B = some zB →
      (∀ u, zA.offsetAt u = cA) → (∀ u, zB.offsetAt u = cB) →
      ∃ c1 c2 : Int × Int × Int,
        convertCore db now A (hhmmStr h.val m.val) B = .ok c1 ∧
        convertCore db now B
          (hhmmStr (wallHourMs (c1.1 + c1.2.2 * 60000))
                   (wallMinMs (c1.1 + c1.2.2 * 60000))) A = .ok c2 ∧
        wallHourMs (c2.1 + c2.2.2 * 60000) = h.val ∧
        wallMinMs (c2.1 + c2.2.2 * 60000) = m.val) := by
  constructor
  · intro db now src t tgt c hc
    unfold convertTime
    rw [hc]
  · intro db now A B zA zB cA cB h m hA hB hcA hcB
    have hp1 := parse_hhmmStr h m
    have hc1 := @convertCore_const db now A (hhmmStr h.val m.val) B zA zB cA cB
      (h.val, m.val) hA hB hcA hcB hp1
    refine ⟨_, _, hc1,
      @convertCore_const db now B _ A zB zA cB cA _ hB hA hcB hcA
        (parse_hhmmStr ⟨_, wallHourMs_lt _⟩ ⟨_, wallMinMs_lt _⟩), ?_, ?_⟩
    · have hh24 : h.val < 24 := h.isLt
      have hm60 : m.val < 60 := m.isLt
      dsimp only
      unfold wallHourMs wallMinMs msOfFields
      omega
    · have hh24 : h.val < 24 := h.isLt
      have hm60 : m.val < 60 := m.isLt
      dsimp only
      unfold wallHourMs wallMinMs msOfFields
      omega

/-- Witness for C6 amended: the UTC to Tokyo round trip of 20:00 at the
epoch anchor returns to 20:00. -/
theorem convert_time_round_trip_witness :
    ∃ c1 c2 : Int × Int × Int,
      convertCore witnessDb 0 "Etc/UTC" (hhmmStr 20 0) "Asia/Tokyo" = .ok c1 ∧
      convertCore witnessDb 0 "Asia/Tokyo"
        (hhmmStr (wallHourMs (c1.1 + c1.2.2 * 60000))
                 (wallMinMs (c1.1 + c1.2.2 * 60000))) "Etc/UTC" = .ok c2 ∧
      wallHourMs (c2.1 + c2.2.2 * 60000) = 20 ∧
      wallMinMs (c2.1 + c2.2.2 * 60000) = 0 :=
  convert_time_round_trip.2 witnessDb 0 "Etc/UTC" "Asia/Tokyo"
    { name := "Etc/UTC", offsetAt := fun _ => 0 }
    { name := "Asia/Tokyo", offsetAt := fun _ => 540 } 0 540
    ⟨20, by decide⟩ ⟨0, by decide⟩ rfl rfl (fun _ => rfl) (fun _ => rfl)
